import Mathlib

/-!
Shallow embedding of the Koko media-conversion service (src/app.py) and
verification of its specified properties.

The program is a Flask application.  Its pure core — the in-memory
conversion cache, the sweep that evicts expired entries, the filename
derivation, the parameter normalization, and the control flow of the
`/convert` and `/download` handlers — is embedded below as executable Lean
functions.  External effects (the Cloudflare token check, the `ffprobe`
duration probe, and the `ffmpeg` child process) are modelled by an explicit
environment record describing how those collaborators behave during one
call, and the file system is modelled as an explicit list of files that the
embedded handlers thread through.

Conventions: timestamps are integers (seconds, the program uses
`time.time()`); directory paths are kept relative to the application
directory, so `UPLOAD_DIR` is the string `"uploads/"` rather than an
absolute path; `os.path.join(dir, name)` with these trailing-slash
directories is string concatenation.
-/

namespace Koko

/-- Upload directory, from `UPLOAD_DIR` (app.py line 17). -/
def UPLOAD_DIR : String := "uploads/"

/-- Output directory, from `OUTPUT_DIR` (app.py line 18). -/
def OUTPUT_DIR : String := "converted/"

/-- Temp directory, from `TEMP_DIR` (app.py line 19). -/
def TEMP_DIR : String := "temp/"

/-- Maximum accepted upload size in bytes, from `MAX_FILE_SIZE` (app.py line 20). -/
def MAX_FILE_SIZE : Nat := 500 * 1024 * 1024

/-- Cache expiry in seconds, from `CACHE_EXPIRY` (app.py line 21). -/
def CACHE_EXPIRY : Int := 3600

/-! ## File-system model -/

/-- One file on disk: its path, its size in bytes, and its modification time. -/
structure FileInfo where
  path : String
  size : Nat
  mtime : Int
deriving DecidableEq

/-- The file system: the list of files currently on disk. -/
abbrev FS := List FileInfo

/-- Model of `os.path.exists`. -/
def fs_exists (fs : FS) (p : String) : Bool :=
  fs.any fun f => decide (f.path = p)

/-- Model of `os.remove` (removing a non-existent path is a no-op here;
every claim below exercises it only on existing paths or inside guards). -/
def fs_remove (fs : FS) (p : String) : FS :=
  fs.filter fun f => decide (f.path ≠ p)

/-- Model of creating/overwriting a file at `p`. -/
def fs_create (fs : FS) (p : String) (size : Nat) (mtime : Int) : FS :=
  ⟨p, size, mtime⟩ :: fs_remove fs p

/-- Model of `os.path.getsize`. -/
def fs_size (fs : FS) (p : String) : Option Nat :=
  (fs.find? fun f => decide (f.path = p)).map FileInfo.size

/-! ## String helpers from `os.path` and the app's own helpers -/

/-- Index of the last occurrence of `c` in `cs`, or `none` — the list-level
analogue of Python's `str.rfind`. -/
def lastIndexOf (cs : List Char) (c : Char) : Option Nat :=
  match cs with
  | [] => none
  | a :: rest =>
    match lastIndexOf rest c with
    | some i => some (i + 1)
    | none => if a = c then some 0 else none

/-- Model of `os.path.basename`: everything after the last `/`. -/
def basename (p : String) : String :=
  match lastIndexOf p.data '/' with
  | none => p
  | some i => String.mk (p.data.drop (i + 1))

/-- Model of `os.path.splitext`: split at the last dot, provided that dot
lies after the last separator and a non-dot character occurs between the
separator and the dot (so a purely dotted leading basename is not split). -/
def splitext (p : String) : String × String :=
  let cs := p.data
  let sepIndex : Int :=
    match lastIndexOf cs '/' with
    | some i => (i : Int)
    | none => -1
  match lastIndexOf cs '.' with
  | none => (p, "")
  | some d =>
    if (d : Int) > sepIndex then
      let start : Nat := (sepIndex + 1).toNat
      if ((cs.drop start).take (d - start)).any (fun ch => decide (ch ≠ '.')) then
        (String.mk (cs.take d), String.mk (cs.drop d))
      else (p, "")
    else (p, "")

/-- Embeds `sanitize_filename` (app.py lines 72–77): take the basename,
replace spaces with underscores, and keep only `[A-Za-z0-9_\-.]` characters. -/
def sanitize_filename (name : String) : String :=
  let name := basename name
  let name := String.mk (name.data.map fun c => if c = ' ' then '_' else c)
  String.mk (name.data.filter fun c =>
    decide (('A' ≤ c ∧ c ≤ 'Z') ∨ ('a' ≤ c ∧ c ≤ 'z') ∨ ('0' ≤ c ∧ c ≤ '9') ∨
            c = '_' ∨ c = '-' ∨ c = '.'))

/-- Embeds `generate_unique_filename` (app.py lines 79–83); the random
`uuid.uuid4().hex[:10]` fragment is passed in as `unique_id`. -/
def generate_unique_filename (original_name : String) (unique_id : String) : String :=
  let fe := splitext original_name
  sanitize_filename fe.1 ++ "_" ++ unique_id ++ fe.2

/-- Embeds `get_video_duration` (app.py lines 97–112): the ffprobe output is
an environment input; any probe failure (`none`) yields `0`. -/
def get_video_duration (probeOutput : Option Int) : Int :=
  match probeOutput with
  | some d => d
  | none => 0

/-! ## Conversion cache -/

/-- One entry of `file_cache` (app.py line 40):
`{"output_path": path, "last_accessed": timestamp}`. -/
structure CacheRecord where
  output_path : String
  last_accessed : Int
deriving DecidableEq

/-- The `file_cache` dictionary, keyed by content hash.  A Python dict is
insertion-ordered, so it is embedded as an association list with (by the
dict invariant) pairwise-distinct keys. -/
abbrev FileCache := List (String × CacheRecord)

/-- Dictionary lookup `file_cache[h]` combined with the `h in file_cache` test. -/
def lookupEntry (cache : FileCache) (h : String) : Option CacheRecord :=
  (cache.find? fun kv => decide (kv.1 = h)).map Prod.snd

/-- The `file_cache[h]["last_accessed"] = now` update. -/
def touch (cache : FileCache) (h : String) (now : Int) : FileCache :=
  cache.map fun kv => if kv.1 = h then (kv.1, ⟨kv.2.output_path, now⟩) else kv

/-- The `file_cache[h] = {"output_path": path, "last_accessed": now}` dict
assignment (app.py lines 305–309): overwrite in place if the key exists,
otherwise append. -/
def cache_insert (cache : FileCache) (h : String) (path : String) (now : Int) : FileCache :=
  if cache.any fun kv => decide (kv.1 = h) then
    cache.map fun kv => if kv.1 = h then (h, ⟨path, now⟩) else kv
  else cache ++ [(h, ⟨path, now⟩)]

/-- The expiry test `current_time - data["last_accessed"] > CACHE_EXPIRY`
(app.py line 135). -/
def is_expired (current_time : Int) (rec : CacheRecord) : Bool :=
  decide (current_time - rec.last_accessed > CACHE_EXPIRY)

/-- Model of `str.startswith`, used to recognise files in the temp directory. -/
def str_starts_with (s pre : String) : Bool :=
  pre.data.isPrefixOf s.data

/-- Embeds `cleanup_expired_files` (app.py lines 129–158): remove the backing
file of every expired cache record, delete the expired keys from the map, and
then delete temp-directory files older than `CACHE_EXPIRY`. -/
def cleanup_expired_files (current_time : Int) (cache : FileCache) (fs : FS) :
    FileCache × FS :=
  let fs1 := cache.foldl
    (fun acc kv =>
      if is_expired current_time kv.2 then fs_remove acc kv.2.output_path else acc) fs
  let expired_keys := (cache.filter fun kv => is_expired current_time kv.2).map Prod.fst
  let cache1 := cache.filter fun kv => decide (kv.1 ∉ expired_keys)
  let fs2 := fs1.filter fun f =>
    !(str_starts_with f.path TEMP_DIR && decide (current_time - f.mtime > CACHE_EXPIRY))
  (cache1, fs2)

/-! ## The `/convert` handler -/

/-- Allowed output formats (app.py line 262). -/
def ALLOWED_FORMATS : List String := ["mp3", "aac", "wav", "ogg"]

/-- Allowed bitrates (app.py line 265). -/
def ALLOWED_BITRATES : List String := ["128k", "192k", "256k", "320k"]

/-- The ffmpeg argument list built at app.py lines 274–287. -/
def ffmpeg_command (source_video_path : String) (bitrate : String)
    (format_type : String) (output_path : String) : List String :=
  ["ffmpeg", "-i", source_video_path, "-vn", "-ar", "44100", "-ac", "2",
   "-b:a", bitrate, "-threads", "0", "-bufsize", "3M", "-maxrate", "384k",
   "-preset", "ultrafast", "-f", format_type, output_path]

/-- The keyword options of the `subprocess.run` call that launches ffmpeg
(app.py lines 289–294).  `timeoutSeconds` records the `timeout=` keyword:
the source passes none, so the parent waits for the child indefinitely. -/
structure SubprocessOpts where
  captureStdout : Bool
  captureStderr : Bool
  text : Bool
  timeoutSeconds : Option Nat
deriving DecidableEq

/-- Options actually used by the ffmpeg invocation in `convert_video`:
`stdout=PIPE, stderr=PIPE, text=True` and no `timeout=` keyword. -/
def ffmpeg_run_opts : SubprocessOpts :=
  { captureStdout := true, captureStderr := true, text := true, timeoutSeconds := none }

/-- One `/convert` HTTP request, as the handler reads it. -/
structure Request where
  isOptions : Bool
  token : Option String
  hasVideoFile : Bool
  filename : String
  fileSize : Nat
  fileHash : String
  formFormat : Option String
  formBitrate : Option String
deriving DecidableEq

/-- Behaviour of the external collaborators during one `/convert` call:
the Cloudflare verification result, the random uuid fragment, the ffprobe
output, and what the ffmpeg child process does (its exit code, its stderr
text, whether it writes the output file and how large, and how many seconds
of wall-clock time it runs for before exiting). -/
structure Env where
  tokenValid : Bool
  uniqueId : String
  probeOutput : Option Int
  ffmpegExit : Int
  ffmpegStderr : String
  ffmpegCreatesOutput : Bool
  ffmpegOutputSize : Nat
  ffmpegElapsed : Nat
  now : Int
deriving DecidableEq

/-- Mutable server state threaded through a call: the cache and the disk. -/
structure ServerState where
  file_cache : FileCache
  fs : FS
deriving DecidableEq

/-- The response returned by `convert_video`, one constructor per `return`
statement of the handler.  `serverError` is the `except` branch returning
`{'success': False, 'error': str(e)}` with status 500. -/
inductive ConvertResponse where
  | optionsNoContent
  | securityRequired
  | securityFailed
  | noFileUploaded
  | noFileSelected
  | fileTooLarge
  | cachedResult (filename : String)
  | converted (filename : String) (duration : Int) (format : String) (bitrate : String)
  | serverError (message : String)
deriving DecidableEq

/-- Full observable outcome of one `/convert` call: the HTTP response, the
final server state, and the ffmpeg command line that was executed, if the
call reached the (single) ffmpeg invocation at app.py line 289. -/
structure ConvertOutcome where
  response : ConvertResponse
  state : ServerState
  ffmpegCmd : Option (List String)
deriving DecidableEq

/-- Python truthiness of the token: `if not token` is taken when the form
field is absent or the empty string. -/
def tokenMissing (token : Option String) : Bool :=
  match token with
  | none => true
  | some t => decide (t = "")

/-- Embeds the body of the `try:` block of `convert_video` past the cache
check (app.py lines 239–337).  Filenames are derived, the upload is saved,
the duration is probed (and only logged), format and bitrate are normalized,
ffmpeg runs, and the three terminal branches (nonzero exit, missing output,
success) produce the response and the final state.  The `except` handler
(lines 328–337) deletes the saved upload and returns `str(e)`. -/
def convert_after_cache_miss (req : Request) (env : Env) (st : ServerState) :
    ConvertOutcome :=
  let unique_video_name := generate_unique_filename req.filename env.uniqueId
  let video_path := UPLOAD_DIR ++ unique_video_name
  let output_filename := (splitext unique_video_name).1 ++ ".mp3"
  let output_path := OUTPUT_DIR ++ output_filename
  let fs1 := fs_create st.fs video_path req.fileSize env.now
  let duration := get_video_duration env.probeOutput
  let source_video_path := video_path
  let format_type0 := req.formFormat.getD "mp3"
  let bitrate0 := req.formBitrate.getD "192k"
  let format_type := if format_type0 ∈ ALLOWED_FORMATS then format_type0 else "mp3"
  let bitrate := if bitrate0 ∈ ALLOWED_BITRATES then bitrate0 else "192k"
  let output_filename :=
    if format_type ≠ "mp3" then (splitext unique_video_name).1 ++ "." ++ format_type
    else output_filename
  let output_path :=
    if format_type ≠ "mp3" then OUTPUT_DIR ++ output_filename else output_path
  let cmd := ffmpeg_command source_video_path bitrate format_type output_path
  let fs2 :=
    if env.ffmpegCreatesOutput then fs_create fs1 output_path env.ffmpegOutputSize env.now
    else fs1
  let branch : ConvertResponse × ServerState :=
    if env.ffmpegExit ≠ 0 then
      (.serverError ("FFmpeg conversion failed: " ++ env.ffmpegStderr),
       ⟨st.file_cache, fs_remove fs2 video_path⟩)
    else if !(fs_exists fs2 output_path) then
      (.serverError "Output file was not created",
       ⟨st.file_cache, fs_remove fs2 video_path⟩)
    else
      (.converted output_filename duration format_type bitrate,
       ⟨cache_insert st.file_cache req.fileHash output_path env.now,
        fs_remove fs2 video_path⟩)
  ⟨branch.1, branch.2, some cmd⟩

/-- Embeds the `convert_video` handler (app.py lines 178–337): the OPTIONS
short-circuit, the token checks, the file-presence, empty-filename and size
checks, then the cache check (a hit requires both the map entry and its
backing file; a present entry with a missing file falls through to
conversion without being removed), and finally the conversion path. -/
def convert_video (req : Request) (env : Env) (st : ServerState) : ConvertOutcome :=
  if req.isOptions then ⟨.optionsNoContent, st, none⟩
  else if tokenMissing req.token then ⟨.securityRequired, st, none⟩
  else if !env.tokenValid then ⟨.securityFailed, st, none⟩
  else if !req.hasVideoFile then ⟨.noFileUploaded, st, none⟩
  else if req.filename = "" then ⟨.noFileSelected, st, none⟩
  else if req.fileSize > MAX_FILE_SIZE then ⟨.fileTooLarge, st, none⟩
  else
    match lookupEntry st.file_cache req.fileHash with
    | some rec =>
      if fs_exists st.fs rec.output_path then
        ⟨.cachedResult (basename rec.output_path),
         ⟨touch st.file_cache req.fileHash env.now, st.fs⟩, none⟩
      else convert_after_cache_miss req env st
    | none => convert_after_cache_miss req env st

/-! ## The `/download` handler -/

/-- The cache update performed by `download_file` (app.py lines 345–349):
scan the cache in order, refresh `last_accessed` of the first record whose
output basename equals the requested filename, and `break`. -/
def download_touch (cache : FileCache) (filename : String) (now : Int) : FileCache :=
  match cache with
  | [] => []
  | kv :: rest =>
    if basename kv.2.output_path = filename then
      (kv.1, ⟨kv.2.output_path, now⟩) :: rest
    else kv :: download_touch rest filename now

/-- Response of the `/download` route. -/
inductive DownloadResponse where
  | fileContent (path : String)
  | notFound (filename : String)
deriving DecidableEq

/-- Embeds the `download_file` handler (app.py lines 339–363). -/
def download_file (filename : String) (now : Int) (cache : FileCache) (fs : FS) :
    DownloadResponse × FileCache :=
  let file_path := OUTPUT_DIR ++ filename
  let cache1 := download_touch cache filename now
  if fs_exists fs file_path then (.fileContent file_path, cache1)
  else (.notFound filename, cache1)

/-! ## Observation helpers -/

/-- A response that means the request was admitted past all up-front checks
and reached the conversion pipeline (served from cache, converted, or failed
inside the pipeline) — as opposed to being rejected up front. -/
def isAdmitted : ConvertResponse → Bool
  | .cachedResult _ => true
  | .converted _ _ _ _ => true
  | .serverError _ => true
  | _ => false

/-- Whether a response is the success response of a fresh conversion. -/
def isConverted : ConvertResponse → Bool
  | .converted _ _ _ _ => true
  | _ => false

/-- The `i`-th argument of a recorded command invocation, if the command ran. -/
def cmdArg (cmd : Option (List String)) (i : Nat) : Option String :=
  cmd.bind fun c => c.get? i

/-! ## Concrete fixtures used by counterexamples and witnesses -/

/-- A well-formed upload request: valid token, 1000-byte file `video.mp4`
with content hash `h1`, no explicit format or bitrate fields. -/
def reqA : Request :=
  { isOptions := false, token := some "tok", hasVideoFile := true,
    filename := "video.mp4", fileSize := 1000, fileHash := "h1",
    formFormat := none, formBitrate := none }

/-- A benign environment: the token verifies, ffprobe reports 30 seconds,
and ffmpeg exits 0 after 5 seconds having written a 1000-byte output. -/
def envA : Env :=
  { tokenValid := true, uniqueId := "abcdef1234", probeOutput := some 30,
    ffmpegExit := 0, ffmpegStderr := "", ffmpegCreatesOutput := true,
    ffmpegOutputSize := 1000, ffmpegElapsed := 5, now := 0 }

/-- Environment in which ffmpeg fails (exit 1) with a raw diagnostic on
stderr and writes no output file. -/
def envFail : Env :=
  { envA with
    ffmpegExit := 1
    ffmpegStderr := "boom: raw diagnostic"
    ffmpegCreatesOutput := false }

/-- Environment in which ffmpeg fails (exit 1) after writing a 5-byte
partial output file. -/
def envFailPartial : Env :=
  { envA with
    ffmpegExit := 1
    ffmpegStderr := "partial"
    ffmpegCreatesOutput := true
    ffmpegOutputSize := 5 }

/-- Environment in which ffmpeg exits 0 but writes a zero-byte output. -/
def envZero : Env :=
  { envA with ffmpegOutputSize := 0 }

/-- Empty server state: empty cache, empty disk. -/
def stEmpty : ServerState := { file_cache := [], fs := [] }

/-- Server state with a cache entry for hash `h1` whose backing file is
missing from the disk (a stale entry). -/
def stStale : ServerState :=
  { file_cache := [("h1", ⟨"converted/gone.mp3", 0⟩)], fs := [] }

/-! ## Helper lemmas about the file-system model -/

lemma fs_exists_filter_false {fs : FS} {q : FileInfo → Bool} {p : String}
    (h : fs_exists fs p = false) : fs_exists (fs.filter q) p = false := by
  simp only [fs_exists, List.any_eq_false, decide_eq_true_eq] at h ⊢
  intro f hf
  exact h f (List.mem_of_mem_filter hf)

lemma fs_exists_remove_self (fs : FS) (p : String) :
    fs_exists (fs_remove fs p) p = false := by
  simp only [fs_exists, fs_remove, List.any_eq_false, decide_eq_true_eq]
  intro f hf
  simp only [List.mem_filter, decide_eq_true_eq] at hf
  exact hf.2

lemma fs_exists_remove_other {fs : FS} {p q : String} (h : p ≠ q)
    (hp : fs_exists fs p = true) : fs_exists (fs_remove fs q) p = true := by
  simp only [fs_exists, fs_remove, List.any_eq_true, decide_eq_true_eq] at hp ⊢
  obtain ⟨f, hf, hfp⟩ := hp
  exact ⟨f, List.mem_filter.mpr ⟨hf, by simp [hfp, h]⟩, hfp⟩

lemma fs_exists_create_self (fs : FS) (p : String) (size : Nat) (mtime : Int) :
    fs_exists (fs_create fs p size mtime) p = true := by
  simp [fs_exists, fs_create]

/-- The string `UPLOAD_DIR ++ a` is never equal to `OUTPUT_DIR ++ b`:
uploads and conversion outputs live in different directories. -/
lemma upload_ne_output (a b : String) : UPLOAD_DIR ++ a ≠ OUTPUT_DIR ++ b := by
  intro h
  have hd := congrArg String.data h
  simp only [String.data_append, UPLOAD_DIR, OUTPUT_DIR] at hd
  exact absurd (List.head_eq_of_cons_eq hd) (by decide)

/-! ## Helper lemmas about the sweep -/

/-- The file-removal pass of the sweep never adds files: a path absent from
the accumulator stays absent. -/
lemma sweepfold_preserves_absence (current_time : Int) (l : List (String × CacheRecord))
    (acc : FS) (p : String) (h : fs_exists acc p = false) :
    fs_exists
      (l.foldl (fun acc kv =>
        if is_expired current_time kv.2 then fs_remove acc kv.2.output_path else acc) acc)
      p = false := by
  induction l generalizing acc with
  | nil => exact h
  | cons a l ih =>
    simp only [List.foldl_cons]
    apply ih
    split
    · exact fs_exists_filter_false h
    · exact h

/-- The file-removal pass of the sweep deletes the backing file of every
expired record it visits. -/
lemma sweepfold_removes_expired (current_time : Int) (l : List (String × CacheRecord))
    (acc : FS) (kv : String × CacheRecord) (hkv : kv ∈ l)
    (hexp : is_expired current_time kv.2 = true) :
    fs_exists
      (l.foldl (fun acc kv =>
        if is_expired current_time kv.2 then fs_remove acc kv.2.output_path else acc) acc)
      kv.2.output_path = false := by
  induction l generalizing acc with
  | nil => cases hkv
  | cons a l ih =>
    simp only [List.foldl_cons]
    rcases List.mem_cons.mp hkv with h | h
    · subst h
      rw [hexp]
      simp only [if_true]
      exact sweepfold_preserves_absence current_time l _ _ (fs_exists_remove_self acc _)
    · exact ih _ h

/-- Entries of a list with pairwise-distinct keys are determined by their key. -/
lemma keys_nodup_inj {cache : FileCache} (hnd : (cache.map Prod.fst).Nodup)
    {a b : String × CacheRecord} (ha : a ∈ cache) (hb : b ∈ cache) (hab : a.1 = b.1) :
    a = b :=
  List.inj_on_of_nodup_map hnd ha hb hab

/-- C6: the sweep `cleanup_expired_files` removes exactly the cache records
whose idle time is strictly greater than `CACHE_EXPIRY`: an expired record's
key disappears from the map and its backing file is deleted from the disk,
while every record with idle time at most `CACHE_EXPIRY` (in particular one
with `last_accessed = now - CACHE_EXPIRY + 1`) survives in the map.  The
key-distinctness hypothesis is the Python dict invariant. -/
theorem sweep_removes_exactly_expired (current_time : Int) (cache : FileCache) (fs : FS)
    (hnd : (cache.map Prod.fst).Nodup) (kv : String × CacheRecord) (hkv : kv ∈ cache) :
    (current_time - kv.2.last_accessed > CACHE_EXPIRY →
      kv.1 ∉ ((cleanup_expired_files current_time cache fs).1.map Prod.fst) ∧
      fs_exists (cleanup_expired_files current_time cache fs).2 kv.2.output_path = false) ∧
    (¬(current_time - kv.2.last_accessed > CACHE_EXPIRY) →
      kv ∈ (cleanup_expired_files current_time cache fs).1) := by
  have hfst : (cleanup_expired_files current_time cache fs).1 =
      cache.filter (fun kv => decide (kv.1 ∉
        ((cache.filter fun kv => is_expired current_time kv.2).map Prod.fst))) := rfl
  constructor
  · intro hexp
    have hexpb : is_expired current_time kv.2 = true := by
      simpa [is_expired] using hexp
    constructor
    · intro hmem
      rw [hfst] at hmem
      obtain ⟨kv', hkv'mem, hkey⟩ := List.mem_map.mp hmem
      obtain ⟨_, hdec⟩ := List.mem_filter.mp hkv'mem
      have h3 := of_decide_eq_true hdec
      exact h3 (by
        rw [hkey]
        exact List.mem_map_of_mem Prod.fst (List.mem_filter.mpr ⟨hkv, hexpb⟩))
    · exact fs_exists_filter_false
        (sweepfold_removes_expired current_time cache fs kv hkv hexpb)
  · intro hlive
    have hliveb : is_expired current_time kv.2 = false := by
      simpa [is_expired] using hlive
    rw [hfst]
    refine List.mem_filter.mpr ⟨hkv, decide_eq_true ?_⟩
    intro hmem
    obtain ⟨kv', hkv'mem, hkey⟩ := List.mem_map.mp hmem
    obtain ⟨hkv'c, hexp'⟩ := List.mem_filter.mp hkv'mem
    have heq : kv' = kv := keys_nodup_inj hnd hkv'c hkv hkey
    rw [heq, hliveb] at hexp'
    cases hexp'

/-- Witness for C6 at the claim's two boundary inputs: with `now = 10000`
and expiry 3600, the record last accessed at `6399 = now - expiry - 1` is
gone from the map (and its file deleted), while the record last accessed at
`6401 = now - expiry + 1` survives. -/
theorem sweep_removes_exactly_expired_witness :
    (("k1" ∉ ((cleanup_expired_files 10000
        [("k1", ⟨"converted/a.mp3", 6399⟩), ("k2", ⟨"converted/b.mp3", 6401⟩)]
        [⟨"converted/a.mp3", 10, 0⟩, ⟨"converted/b.mp3", 10, 0⟩]).1.map Prod.fst)) ∧
      fs_exists (cleanup_expired_files 10000
        [("k1", ⟨"converted/a.mp3", 6399⟩), ("k2", ⟨"converted/b.mp3", 6401⟩)]
        [⟨"converted/a.mp3", 10, 0⟩, ⟨"converted/b.mp3", 10, 0⟩]).2
        "converted/a.mp3" = false) ∧
    ("k2", (⟨"converted/b.mp3", 6401⟩ : CacheRecord)) ∈ (cleanup_expired_files 10000
        [("k1", ⟨"converted/a.mp3", 6399⟩), ("k2", ⟨"converted/b.mp3", 6401⟩)]
        [⟨"converted/a.mp3", 10, 0⟩, ⟨"converted/b.mp3", 10, 0⟩]).1 :=
  ⟨(sweep_removes_exactly_expired 10000
      [("k1", ⟨"converted/a.mp3", 6399⟩), ("k2", ⟨"converted/b.mp3", 6401⟩)]
      [⟨"converted/a.mp3", 10, 0⟩, ⟨"converted/b.mp3", 10, 0⟩]
      (by decide) ("k1", ⟨"converted/a.mp3", 6399⟩) (by decide)).1 (by decide),
   (sweep_removes_exactly_expired 10000
      [("k1", ⟨"converted/a.mp3", 6399⟩), ("k2", ⟨"converted/b.mp3", 6401⟩)]
      [⟨"converted/a.mp3", 10, 0⟩, ⟨"converted/b.mp3", 10, 0⟩]
      (by decide) ("k2", ⟨"converted/b.mp3", 6401⟩) (by decide)).2 (by decide)⟩

/-! ## C10: the download handler's cache update -/

/-- The scan-and-break loop of `download_file` updates exactly the first
record whose output basename matches, leaving every other entry untouched. -/
lemma download_touch_append (pre post : FileCache) (kv : String × CacheRecord)
    (filename : String) (now : Int)
    (hpre : ∀ x ∈ pre, basename x.2.output_path ≠ filename)
    (hkv : basename kv.2.output_path = filename) :
    download_touch (pre ++ kv :: post) filename now =
      pre ++ (kv.1, ⟨kv.2.output_path, now⟩) :: post := by
  induction pre with
  | nil => simp [download_touch, hkv]
  | cons x pre ih =>
    simp only [List.cons_append, download_touch, List.append_eq]
    rw [if_neg (hpre x (by simp)), ih (fun y hy => hpre y (by simp [hy]))]

/-- C10: when the requested filename matches the output basename of some
cached record, `download_file` refreshes `last_accessed` of the first such
record to the current time and modifies nothing else: entries before the
match, entries after it (including further records with the same basename),
and the matched record's key and path are all unchanged. -/
theorem download_touches_first_match (pre post : FileCache) (kv : String × CacheRecord)
    (filename : String) (now : Int) (fs : FS)
    (hpre : ∀ x ∈ pre, basename x.2.output_path ≠ filename)
    (hkv : basename kv.2.output_path = filename) :
    (download_file filename now (pre ++ kv :: post) fs).2 =
      pre ++ (kv.1, ⟨kv.2.output_path, now⟩) :: post := by
  simp only [download_file]
  split <;> exact download_touch_append pre post kv filename now hpre hkv

/-- Witness for C10: downloading `b.mp3` refreshes only the first matching
record (`k2`), leaving the non-matching `k1` and the later equally-matching
`k3` untouched. -/
theorem download_touches_first_match_witness :
    (download_file "b.mp3" 99
      [("k1", ⟨"converted/a.mp3", 5⟩), ("k2", ⟨"converted/b.mp3", 7⟩),
       ("k3", ⟨"converted/b.mp3", 8⟩)] []).2 =
      [("k1", ⟨"converted/a.mp3", 5⟩), ("k2", ⟨"converted/b.mp3", 99⟩),
       ("k3", ⟨"converted/b.mp3", 8⟩)] :=
  download_touches_first_match [("k1", ⟨"converted/a.mp3", 5⟩)]
    [("k3", ⟨"converted/b.mp3", 8⟩)] ("k2", ⟨"converted/b.mp3", 7⟩) "b.mp3" 99 []
    (by decide) (by decide)

/-! ## Reduction lemmas for the `/convert` handler -/

/-- A request that passes every up-front check and whose hash is not in the
cache proceeds to the conversion path. -/
lemma convert_video_miss (req : Request) (env : Env) (st : ServerState)
    (h0 : req.isOptions = false) (h1 : tokenMissing req.token = false)
    (h2 : env.tokenValid = true) (h3 : req.hasVideoFile = true)
    (h4 : req.filename ≠ "") (h5 : ¬ (req.fileSize > MAX_FILE_SIZE))
    (h6 : lookupEntry st.file_cache req.fileHash = none) :
    convert_video req env st = convert_after_cache_miss req env st := by
  unfold convert_video
  rw [h6]
  simp [h0, h1, h2, h3, h4, h5]

/-- A request that passes every up-front check and finds a cache entry whose
backing file is missing also proceeds to the conversion path (without the
stale entry being touched). -/
lemma convert_video_stale (req : Request) (env : Env) (st : ServerState)
    (rec : CacheRecord)
    (h0 : req.isOptions = false) (h1 : tokenMissing req.token = false)
    (h2 : env.tokenValid = true) (h3 : req.hasVideoFile = true)
    (h4 : req.filename ≠ "") (h5 : ¬ (req.fileSize > MAX_FILE_SIZE))
    (h6 : lookupEntry st.file_cache req.fileHash = some rec)
    (h7 : fs_exists st.fs rec.output_path = false) :
    convert_video req env st = convert_after_cache_miss req env st := by
  unfold convert_video
  rw [h6]
  simp [h0, h1, h2, h3, h4, h5, h7]

/-! ## C1: raw ffmpeg stderr reaches the caller -/

/-- C1 (counterexample): the claim says raw tool stderr is never surfaced
verbatim to the caller.  In fact, when ffmpeg exits nonzero the handler
raises `Exception(f"FFmpeg conversion failed: {process.stderr}")` and the
`except` branch returns `str(e)` to the caller, so for a failing request
with stderr `"boom: raw diagnostic"` the caller's error message is exactly
the raw stderr appended to a fixed prefix. -/
theorem stderr_surfaced_verbatim_concrete :
    (convert_video reqA envFail stEmpty).response =
      ConvertResponse.serverError ("FFmpeg conversion failed: " ++ "boom: raw diagnostic") :=
  rfl

/-- C1 (amended): for every failing transcode (nonzero ffmpeg exit) on the
conversion path, the error message returned to the caller embeds the tool's
raw stderr text verbatim after the fixed prefix `"FFmpeg conversion
failed: "`; no classification to a stable category happens. -/
theorem ffmpeg_failure_message_embeds_stderr (req : Request) (env : Env) (st : ServerState)
    (h0 : req.isOptions = false) (h1 : tokenMissing req.token = false)
    (h2 : env.tokenValid = true) (h3 : req.hasVideoFile = true)
    (h4 : req.filename ≠ "") (h5 : ¬ (req.fileSize > MAX_FILE_SIZE))
    (h6 : lookupEntry st.file_cache req.fileHash = none)
    (hexit : env.ffmpegExit ≠ 0) :
    (convert_video req env st).response =
      ConvertResponse.serverError ("FFmpeg conversion failed: " ++ env.ffmpegStderr) := by
  rw [convert_video_miss req env st h0 h1 h2 h3 h4 h5 h6]
  simp only [convert_after_cache_miss]
  rw [if_pos hexit]

/-- Witness for the amended C1 at a concrete failing request. -/
theorem ffmpeg_failure_message_embeds_stderr_witness :
    (convert_video reqA envFail stEmpty).response =
      ConvertResponse.serverError ("FFmpeg conversion failed: " ++ envFail.ffmpegStderr) :=
  ffmpeg_failure_message_embeds_stderr reqA envFail stEmpty rfl rfl rfl rfl
    (by decide) (by decide) rfl (by decide)

/-! ## C2: no wall-clock timeout on the transcode -/

/-- C2 (counterexample): the claim says a hard wall-clock timeout is
enforced and an over-running child yields a `TranscodeTimeout` error.  In
fact the `subprocess.run` call passes no `timeout=` keyword at all, and a
child that runs for `10^9` seconds still produces the normal success
response — there is no timeout error of any kind. -/
theorem no_timeout_configured_concrete :
    ffmpeg_run_opts.timeoutSeconds = none ∧
    (convert_video reqA { envA with ffmpegElapsed := 1000000000 } stEmpty).response =
      ConvertResponse.converted "video_abcdef1234.mp3" 30 "mp3" "192k" :=
  ⟨rfl, rfl⟩

/-- C2 (amended): no wall-clock timeout is enforced on the transcode
invocation: the `subprocess.run` options carry no timeout, and the outcome
of every `/convert` call is completely independent of how long the ffmpeg
child process runs — the parent simply blocks until the child exits, and no
timeout error is ever returned. -/
theorem transcode_has_no_timeout :
    ffmpeg_run_opts.timeoutSeconds = none ∧
    ∀ (req : Request) (env : Env) (st : ServerState) (t₁ t₂ : Nat),
      convert_video req { env with ffmpegElapsed := t₁ } st =
        convert_video req { env with ffmpegElapsed := t₂ } st := by
  refine ⟨rfl, fun req env st t₁ t₂ => ?_⟩
  cases env
  rfl

/-! ## C3: no preprocessing pass exists -/

/-- C3 (counterexample): the claim says an input whose probed duration
exceeds the threshold is first compressed and the transcode consumes the
smaller intermediate.  In fact, for a probed duration of 1000000 seconds
(far above any threshold) the single ffmpeg invocation reads the saved
original upload `uploads/video_abcdef1234.mp4` directly — the source sets
`source_video_path = video_path` unconditionally and only logs the
duration. -/
theorem long_video_transcoded_from_original_concrete :
    (convert_video reqA { envA with probeOutput := some 1000000 } stEmpty).ffmpegCmd =
      some (ffmpeg_command "uploads/video_abcdef1234.mp4" "192k" "mp3"
        "converted/video_abcdef1234.mp3") ∧
    (convert_video reqA { envA with probeOutput := some 1000000 } stEmpty).response =
      ConvertResponse.converted "video_abcdef1234.mp3" 1000000 "mp3" "192k" :=
  ⟨rfl, rfl⟩

/-- C3 (amended): the probed duration is used only for the logged/reported
value; no compression pass ever runs, and for every request reaching the
conversion path — whatever the probed duration, above or below any
threshold — the transcode's input argument is the saved original upload. -/
theorem transcode_always_consumes_original (req : Request) (env : Env) (st : ServerState)
    (h0 : req.isOptions = false) (h1 : tokenMissing req.token = false)
    (h2 : env.tokenValid = true) (h3 : req.hasVideoFile = true)
    (h4 : req.filename ≠ "") (h5 : ¬ (req.fileSize > MAX_FILE_SIZE))
    (h6 : lookupEntry st.file_cache req.fileHash = none) :
    cmdArg (convert_video req env st).ffmpegCmd 2 =
      some (UPLOAD_DIR ++ generate_unique_filename req.filename env.uniqueId) := by
  rw [convert_video_miss req env st h0 h1 h2 h3 h4 h5 h6]
  rfl

/-- Witness for the amended C3 at a concrete over-long input. -/
theorem transcode_always_consumes_original_witness :
    cmdArg (convert_video reqA { envA with probeOutput := some 1000000 } stEmpty).ffmpegCmd
        2 =
      some (UPLOAD_DIR ++ generate_unique_filename reqA.filename
        ({ envA with probeOutput := some 1000000 } : Env).uniqueId) :=
  transcode_always_consumes_original reqA { envA with probeOutput := some 1000000 } stEmpty
    rfl rfl rfl rfl (by decide) (by decide) rfl

/-! ## C4: there is no rate limiter -/

/-- Everything `convert_after_cache_miss` returns counts as admitted. -/
lemma isAdmitted_after_miss (req : Request) (env : Env) (st : ServerState) :
    isAdmitted (convert_after_cache_miss req env st).response = true := by
  simp only [convert_after_cache_miss]
  repeat' split
  all_goals rfl

/-- C4 (counterexample): the claim says that with quota `q` and window `w`
a client's `(q+1)`-th request within `w` is rejected with a rate-limit
error.  In fact no rate limiter exists: four identical requests from the
same client at times 0, 10, 20 and 30 seconds (all inside any plausible
window, e.g. the spec's quota 3 / 1-hour example) are all admitted, the
fourth being served from cache rather than rejected. -/
theorem fourth_request_within_window_admitted :
    (convert_video reqA { envA with now := 30 }
      (convert_video reqA { envA with now := 20 }
        (convert_video reqA { envA with now := 10 }
          (convert_video reqA envA stEmpty).state).state).state).response =
      ConvertResponse.cachedResult "video_abcdef1234.mp3" :=
  rfl

/-- C4 (amended): there is no rate-limiter admission check at all: every
request that passes the security-token, file-presence, filename and size
checks is admitted to the pipeline (served from cache, converted, or failed
inside conversion), regardless of the client or of how many earlier requests
occurred within any time window. -/
theorem no_rate_limit_rejection (req : Request) (env : Env) (st : ServerState)
    (h0 : req.isOptions = false) (h1 : tokenMissing req.token = false)
    (h2 : env.tokenValid = true) (h3 : req.hasVideoFile = true)
    (h4 : req.filename ≠ "") (h5 : ¬ (req.fileSize > MAX_FILE_SIZE)) :
    isAdmitted (convert_video req env st).response = true := by
  unfold convert_video
  simp only [h0, h1, h2, h3, Bool.not_true, Bool.false_eq_true, if_false, if_neg h4,
    if_neg h5]
  cases hl : lookupEntry st.file_cache req.fileHash with
  | none => exact isAdmitted_after_miss req env st
  | some rec =>
    dsimp only
    by_cases hfs : fs_exists st.fs rec.output_path = true
    · rw [if_pos hfs]
      rfl
    · rw [if_neg hfs]
      exact isAdmitted_after_miss req env st

/-- Witness for the amended C4 at a concrete request. -/
theorem no_rate_limit_rejection_witness :
    isAdmitted (convert_video reqA envA stEmpty).response = true :=
  no_rate_limit_rejection reqA envA stEmpty rfl rfl rfl rfl (by decide) (by decide)

/-! ## C5: format and bitrate normalization -/

/-- C5: a requested format outside `{mp3, aac, wav, ogg}` is normalized to
`mp3` and a requested bitrate outside `{128k, 192k, 256k, 320k}` is
normalized to `192k` (never rejected), and exactly the normalized values
appear as the `-b:a` and `-f` arguments of the executed ffmpeg command. -/
theorem format_bitrate_normalized_in_command (req : Request) (env : Env) (st : ServerState)
    (h0 : req.isOptions = false) (h1 : tokenMissing req.token = false)
    (h2 : env.tokenValid = true) (h3 : req.hasVideoFile = true)
    (h4 : req.filename ≠ "") (h5 : ¬ (req.fileSize > MAX_FILE_SIZE))
    (h6 : lookupEntry st.file_cache req.fileHash = none) :
    cmdArg (convert_video req env st).ffmpegCmd 9 =
      some (if req.formBitrate.getD "192k" ∈ ALLOWED_BITRATES
            then req.formBitrate.getD "192k" else "192k") ∧
    cmdArg (convert_video req env st).ffmpegCmd 19 =
      some (if req.formFormat.getD "mp3" ∈ ALLOWED_FORMATS
            then req.formFormat.getD "mp3" else "mp3") := by
  rw [convert_video_miss req env st h0 h1 h2 h3 h4 h5 h6]
  exact ⟨rfl, rfl⟩

/-- A request carrying a format and a bitrate outside the allow-lists. -/
def reqInvalid : Request :=
  { reqA with
    formFormat := some "flac"
    formBitrate := some "999k" }

/-- Witness for C5: the invalid format `flac` and bitrate `999k` are
normalized, and the executed command carries the normalized values. -/
theorem format_bitrate_normalized_in_command_witness :
    cmdArg (convert_video reqInvalid envA stEmpty).ffmpegCmd 9 =
      some (if reqInvalid.formBitrate.getD "192k" ∈ ALLOWED_BITRATES
            then reqInvalid.formBitrate.getD "192k" else "192k") ∧
    cmdArg (convert_video reqInvalid envA stEmpty).ffmpegCmd 19 =
      some (if reqInvalid.formFormat.getD "mp3" ∈ ALLOWED_FORMATS
            then reqInvalid.formFormat.getD "mp3" else "mp3") :=
  format_bitrate_normalized_in_command reqInvalid envA stEmpty rfl rfl rfl rfl
    (by decide) (by decide) rfl

/-! ## C7: a zero-size output is accepted as success -/

/-- C7 (counterexample): the claim says an empty (zero-size) output is
reported as a failure even when the exit code is zero.  In fact the handler
only checks `os.path.exists(output_path)`: when ffmpeg exits 0 after
writing a zero-byte output file, the call returns the normal success
response and the empty artifact is cached. -/
theorem zero_size_output_reported_success_concrete :
    (convert_video reqA envZero stEmpty).response =
      ConvertResponse.converted "video_abcdef1234.mp3" 30 "mp3" "192k" ∧
    fs_size (convert_video reqA envZero stEmpty).state.fs
      "converted/video_abcdef1234.mp3" = some 0 :=
  ⟨rfl, rfl⟩

/-- C7 (amended): after a zero exit code the pipeline verifies only that the
output file exists; a present but zero-size output is accepted and the call
returns the fresh-conversion success response — there is no `EmptyOutput`
failure. -/
theorem exit_zero_with_existing_output_succeeds (req : Request) (env : Env)
    (st : ServerState)
    (h0 : req.isOptions = false) (h1 : tokenMissing req.token = false)
    (h2 : env.tokenValid = true) (h3 : req.hasVideoFile = true)
    (h4 : req.filename ≠ "") (h5 : ¬ (req.fileSize > MAX_FILE_SIZE))
    (h6 : lookupEntry st.file_cache req.fileHash = none)
    (hexit : env.ffmpegExit = 0) (hcreate : env.ffmpegCreatesOutput = true)
    (hsize : env.ffmpegOutputSize = 0) :
    isConverted (convert_video req env st).response = true := by
  rw [convert_video_miss req env st h0 h1 h2 h3 h4 h5 h6]
  simp [convert_after_cache_miss, hcreate, hexit, fs_exists_create_self, isConverted]

/-- Witness for the amended C7 at a concrete zero-size output. -/
theorem exit_zero_with_existing_output_succeeds_witness :
    isConverted (convert_video reqA envZero stEmpty).response = true :=
  exit_zero_with_existing_output_succeeds reqA envZero stEmpty rfl rfl rfl rfl
    (by decide) (by decide) rfl rfl rfl rfl

/-! ## C8: a stale cache entry is not removed by the lookup -/

/-- C8 (counterexample): the claim says a lookup hitting an entry whose
backing file is gone behaves as a miss and removes the stale entry.  The
miss behaviour is real, but the stale entry is not removed: with a cached
entry for `h1` pointing at the missing file `converted/gone.mp3`, a call
whose conversion then fails leaves the stale entry in the cache untouched. -/
theorem stale_entry_survives_lookup_concrete :
    (convert_video reqA envFail stStale).state.file_cache =
      [("h1", ⟨"converted/gone.mp3", 0⟩)] ∧
    (convert_video reqA envFail stStale).response =
      ConvertResponse.serverError ("FFmpeg conversion failed: " ++ "boom: raw diagnostic") :=
  ⟨rfl, rfl⟩

/-- C8 (amended): a lookup whose entry's backing file is missing is treated
as a miss — the call proceeds to run ffmpeg — but the stale map entry is
not dropped by the lookup: when the subsequent conversion fails, the cache
is exactly what it was before the call, stale entry included. -/
theorem stale_entry_miss_but_retained (req : Request) (env : Env) (st : ServerState)
    (rec : CacheRecord)
    (h0 : req.isOptions = false) (h1 : tokenMissing req.token = false)
    (h2 : env.tokenValid = true) (h3 : req.hasVideoFile = true)
    (h4 : req.filename ≠ "") (h5 : ¬ (req.fileSize > MAX_FILE_SIZE))
    (h6 : lookupEntry st.file_cache req.fileHash = some rec)
    (h7 : fs_exists st.fs rec.output_path = false)
    (hexit : env.ffmpegExit ≠ 0) :
    (convert_video req env st).ffmpegCmd.isSome = true ∧
    (convert_video req env st).state.file_cache = st.file_cache := by
  rw [convert_video_stale req env st rec h0 h1 h2 h3 h4 h5 h6 h7]
  constructor
  · rfl
  · simp only [convert_after_cache_miss]
    rw [if_pos hexit]

/-- Witness for the amended C8 at the concrete stale-entry state. -/
theorem stale_entry_miss_but_retained_witness :
    (convert_video reqA envFail stStale).ffmpegCmd.isSome = true ∧
    (convert_video reqA envFail stStale).state.file_cache = stStale.file_cache :=
  stale_entry_miss_but_retained reqA envFail stStale ⟨"converted/gone.mp3", 0⟩
    rfl rfl rfl rfl (by decide) (by decide) rfl rfl (by decide)

/-! ## C9: the upload is deleted but a partial output is leaked -/

/-- C9 (counterexample): the claim says every scratch and intermediate file
— the saved upload and any partial transcode output — is deleted on every
terminal outcome.  In fact, when ffmpeg fails (exit 1) after writing a
partial 5-byte output file, the `except` branch deletes only the saved
upload: the partial output file is still on disk after the call returns. -/
theorem partial_output_left_after_failure_concrete :
    (convert_video reqA envFailPartial stEmpty).response =
      ConvertResponse.serverError ("FFmpeg conversion failed: " ++ "partial") ∧
    fs_exists (convert_video reqA envFailPartial stEmpty).state.fs
      "converted/video_abcdef1234.mp3" = true ∧
    fs_exists (convert_video reqA envFailPartial stEmpty).state.fs
      "uploads/video_abcdef1234.mp4" = false :=
  ⟨rfl, rfl, rfl⟩

/-- C9 (amended): on every terminal outcome of the conversion path the saved
upload is deleted before the call returns, but a partial transcode output
written by a failing ffmpeg run is not: when ffmpeg exits nonzero after
creating the output file, that file (the command's output argument) still
exists after the call. -/
theorem upload_deleted_but_partial_output_kept (req : Request) (env : Env)
    (st : ServerState)
    (h0 : req.isOptions = false) (h1 : tokenMissing req.token = false)
    (h2 : env.tokenValid = true) (h3 : req.hasVideoFile = true)
    (h4 : req.filename ≠ "") (h5 : ¬ (req.fileSize > MAX_FILE_SIZE))
    (h6 : lookupEntry st.file_cache req.fileHash = none)
    (hexit : env.ffmpegExit ≠ 0) (hcreate : env.ffmpegCreatesOutput = true) :
    fs_exists (convert_video req env st).state.fs
      (UPLOAD_DIR ++ generate_unique_filename req.filename env.uniqueId) = false ∧
    ∀ out, cmdArg (convert_video req env st).ffmpegCmd 20 = some out →
      fs_exists (convert_video req env st).state.fs out = true := by
  rw [convert_video_miss req env st h0 h1 h2 h3 h4 h5 h6]
  constructor
  · simp only [convert_after_cache_miss]
    repeat' split
    all_goals exact fs_exists_remove_self _ _
  · intro out hout
    simp only [convert_after_cache_miss] at hout ⊢
    rw [if_pos hexit, if_pos hcreate]
    dsimp only [cmdArg, Option.bind, ffmpeg_command, List.get?] at hout
    injection hout with hout
    subst hout
    by_cases hfmt : (if req.formFormat.getD "mp3" ∈ ALLOWED_FORMATS
        then req.formFormat.getD "mp3" else "mp3") ≠ "mp3"
    · simp only [if_pos hfmt]
      exact fs_exists_remove_other (Ne.symm (upload_ne_output _ _))
        (fs_exists_create_self _ _ _ _)
    · simp only [if_neg hfmt]
      exact fs_exists_remove_other (Ne.symm (upload_ne_output _ _))
        (fs_exists_create_self _ _ _ _)

/-- Witness for the amended C9 at the concrete failing-with-partial-output
environment. -/
theorem upload_deleted_but_partial_output_kept_witness :
    fs_exists (convert_video reqA envFailPartial stEmpty).state.fs
      (UPLOAD_DIR ++ generate_unique_filename reqA.filename envFailPartial.uniqueId) =
        false ∧
    ∀ out, cmdArg (convert_video reqA envFailPartial stEmpty).ffmpegCmd 20 = some out →
      fs_exists (convert_video reqA envFailPartial stEmpty).state.fs out = true :=
  upload_deleted_but_partial_output_kept reqA envFailPartial stEmpty rfl rfl rfl rfl
    (by decide) (by decide) rfl (by decide) rfl

end Koko
